import Mathlib

/-!
Verification of the command dispatcher in `doit.py`, the single source file
of this repository. The script wraps Vagrant and Ansible commands: it builds
an argparse command line with one subparser per subcommand, parses the
arguments, and dispatches to the module-level handler function whose name
equals the chosen subcommand (via `eval(f'{args.subcommand}(**all_arguments)')`),
catching only `NameError`.

The embedding below models an external-process run by recording its
`Invocation` (command tokens plus optional working directory) in a trace.
The outside world is an environment `Env` assigning an exit status to every
possible invocation; `subprocess.run(cmd, check=True, cwd=workdir)` records
the invocation and, when its status is non-zero, raises `CalledProcessError`,
which aborts the rest of the handler (nothing in `doit.py` catches it, so
the Python interpreter terminates with its generic uncaught-exception exit
code 1).
-/

namespace Doit

/-! ### Base utility commands (doit.py lines 16-23) -/

def ANSIBLE_LINT_CMD : List String := ["ansible-lint"]

def ANSIBLE_VAULT_CMD : List String := ["ansible-vault"]

def VAGRANT_DESTROY_CMD : List String := ["vagrant", "destroy"]

def VAGRANT_REPROVISION_CMD : List String := ["vagrant", "provision"]

def VAGRANT_SSH_CMD : List String := ["vagrant", "ssh"]

def VAGRANT_STATUS_CMD : List String := ["vagrant", "status"]

def VAGRANT_UP_CMD : List String := ["vagrant", "up"]

def VAGRANT_VALIDATE_CMD : List String := ["vagrant", "validate"]

/-- One spawned external process: the command token list passed to
`subprocess.run` and the `cwd` argument (`none` means the dispatcher's own
working directory is inherited). -/
structure Invocation where
  cmd : List String
  workdir : Option String
deriving DecidableEq

/-- Result of running a chain of external commands: either every process
exited zero, or `subprocess.run(..., check=True)` raised
`CalledProcessError` carrying the failing invocation and its return code. -/
inductive Outcome where
  | ok : Outcome
  | calledProcessError : Invocation → Nat → Outcome
deriving DecidableEq

/-- The outside world: the exit status each possible invocation would
return. `0` is success. -/
abbrev Env := Invocation → Nat

/-- A handler run: the trace of spawned invocations, in order, and the
outcome. -/
abbrev RunResult := List Invocation × Outcome

/-- `run_cmd_and_exit(cmd, workdir)` (doit.py lines 29-36):
`run(cmd, check=True, cwd=workdir)`. The process is always spawned (so it
always appears in the trace); with `check=True` a non-zero exit status
raises `CalledProcessError`. -/
def run_cmd_and_exit (env : Env) (cmd : List String) (workdir : Option String) : RunResult :=
  let inv : Invocation := ⟨cmd, workdir⟩
  ([inv], if env inv = 0 then Outcome.ok else Outcome.calledProcessError inv (env inv))

/-- Python sequencing of two statements that can raise: the second runs only
when the first completed without an exception; traces concatenate. -/
def andThen (r : RunResult) (k : Unit → RunResult) : RunResult :=
  match r with
  | (tr, Outcome.ok) =>
    let s := k ()
    (tr ++ s.1, s.2)
  | (tr, e) => (tr, e)

/-! ### Handler functions (each takes `**kwargs` in the source) -/

/-- `validate_vagrant(vagrantfile_path, **kwargs)` (lines 54-60). -/
def validate_vagrant (env : Env) (vagrantfile_path : String) : RunResult :=
  run_cmd_and_exit env VAGRANT_VALIDATE_CMD (some vagrantfile_path)

/-- `validate_ansible(playbook_path, **kwargs)` (lines 119-126). -/
def validate_ansible (env : Env) (playbook_path : String) : RunResult :=
  run_cmd_and_exit env (ANSIBLE_LINT_CMD ++ [playbook_path]) none

/-- `validate(vagrantfile_path, playbook_path, **kwargs)` (lines 39-47). -/
def validate (env : Env) (vagrantfile_path playbook_path : String) : RunResult :=
  andThen (validate_vagrant env vagrantfile_path)
    (fun _ => validate_ansible env playbook_path)

/-- `setup(vagrantfile_path, playbook_path, **kwargs)` (lines 63-73). -/
def setup (env : Env) (vagrantfile_path playbook_path : String) : RunResult :=
  andThen (validate env vagrantfile_path playbook_path)
    (fun _ => run_cmd_and_exit env VAGRANT_UP_CMD (some vagrantfile_path))

/-- `status(vagrantfile_path, **kwargs)` (lines 76-82). -/
def status (env : Env) (vagrantfile_path : String) : RunResult :=
  run_cmd_and_exit env VAGRANT_STATUS_CMD (some vagrantfile_path)

/-- `enter(vagrantfile_path, **kwargs)` (lines 85-91). -/
def enter (env : Env) (vagrantfile_path : String) : RunResult :=
  run_cmd_and_exit env VAGRANT_SSH_CMD (some vagrantfile_path)

/-- `reprovision(vagrantfile_path, playbook_path, **kwargs)` (lines 94-103). -/
def reprovision (env : Env) (vagrantfile_path playbook_path : String) : RunResult :=
  andThen (validate env vagrantfile_path playbook_path)
    (fun _ => run_cmd_and_exit env VAGRANT_REPROVISION_CMD (some vagrantfile_path))

/-- `destroy(vagrantfile_path, **kwargs)` (lines 106-112). -/
def destroy (env : Env) (vagrantfile_path : String) : RunResult :=
  run_cmd_and_exit env VAGRANT_DESTROY_CMD (some vagrantfile_path)

/-- `encrypt_vault(vault_file_path, **kwargs)` (lines 129-136). -/
def encrypt_vault (env : Env) (vault_file_path : String) : RunResult :=
  run_cmd_and_exit env (ANSIBLE_VAULT_CMD ++ ["encrypt", vault_file_path]) none

/-- `edit_vault(vault_file_path, **kwargs)` (lines 139-146). -/
def edit_vault (env : Env) (vault_file_path : String) : RunResult :=
  run_cmd_and_exit env (ANSIBLE_VAULT_CMD ++ ["edit", vault_file_path]) none

/-- `view_vault(vault_file_path, **kwargs)` (lines 149-156). -/
def view_vault (env : Env) (vault_file_path : String) : RunResult :=
  run_cmd_and_exit env (ANSIBLE_VAULT_CMD ++ ["view", vault_file_path]) none

/-- `rekey_vault(vault_file_path, **kwargs)` (lines 159-166). -/
def rekey_vault (env : Env) (vault_file_path : String) : RunResult :=
  run_cmd_and_exit env (ANSIBLE_VAULT_CMD ++ ["rekey", vault_file_path]) none

/-! ### Argument parser (lines 172-311) -/

/-- `os.path.join(a, b)` for the relative second components the script
passes. -/
def os_path_join (a b : String) : String := a ++ "/" ++ b

/-- Default playbook path built in `add_argument_playbook` (lines 180-189):
`join(realpath('.'), 'provisioning', 'playbook.yml')`. `realpath('.')` is
passed in as `cwd`. -/
def default_playbook_path (cwd : String) : String :=
  os_path_join (os_path_join cwd "provisioning") "playbook.yml"

/-- Association-list lookup with string keys, used both for the subparser
registry (argparse keeps subparsers in a mapping keyed by name) and for the
`all_arguments = vars(args)` dictionary. -/
def dict_get {β : Type} (d : List (String × β)) (key : String) : Option β :=
  match d with
  | [] => none
  | (k, v) :: rest => if k = key then some v else dict_get rest key

/-- The subparsers registered by `create_subparsers` (lines 228-311), in
registration order, each with the argument destinations its
`add_argument_*` calls create. `vault_file_path` is `required=True` and has
no default; the other two have defaults. -/
def subparser_table : List (String × List String) :=
  [("setup", ["vagrantfile_path", "playbook_path"]),
   ("status", ["vagrantfile_path"]),
   ("enter", ["vagrantfile_path"]),
   ("reprovision", ["vagrantfile_path", "playbook_path"]),
   ("destroy", ["vagrantfile_path"]),
   ("validate", ["vagrantfile_path", "playbook_path"]),
   ("validate_vagrant", ["vagrantfile_path"]),
   ("validate_playbook", ["playbook_path"]),
   ("encrypt_vault", ["vault_file_path"]),
   ("edit_vault", ["vault_file_path"]),
   ("view_vault", ["vault_file_path"]),
   ("rekey_vault", ["vault_file_path"])]

/-- The catalog of subcommand names argparse accepts. -/
def catalog : List String := subparser_table.map Prod.fst

/-- The argument destinations of one subparser, `none` for a name with no
subparser (argparse rejects it as an invalid choice). -/
def subparser_keys (sc : String) : Option (List String) :=
  dict_get subparser_table sc

/-- A command line as handed to the program: which subcommand was named (if
any) and which of the three option flags were supplied with a value. -/
structure CmdLine where
  subcommand : Option String
  vagrantfile_path : Option String
  playbook_path : Option String
  vault_file_path : Option String
deriving DecidableEq

/-- Resolve one argument destination of a subparser to its entry in the
parsed `Namespace`: supplied value, else the default from
`add_argument_vagrantfile` / `add_argument_playbook`; `vault_file_path` has
no default and `required=True`, so its absence is a parse error (`none`). -/
def resolve_key (cwd : String) (cl : CmdLine) (key : String) : Option (String × String) :=
  if key = "vagrantfile_path" then
    some (key, cl.vagrantfile_path.getD cwd)
  else if key = "playbook_path" then
    some (key, cl.playbook_path.getD (default_playbook_path cwd))
  else if key = "vault_file_path" then
    match cl.vault_file_path with
    | some v => some (key, v)
    | none => none
  else none

/-- `parser.parse_args()` followed by main's missing-subcommand check
(lines 336-342): `none` is any path on which `parser.error` runs (missing
subcommand, invalid choice, an option the chosen subparser does not define,
or a missing required option); otherwise the subcommand name and the
`all_arguments = vars(args)` dictionary, which always contains the
`subcommand` key set by `dest='subcommand'`. -/
def parse_args (cwd : String) (cl : CmdLine) : Option (String × List (String × String)) :=
  match cl.subcommand with
  | none => none
  | some sc =>
    match subparser_keys sc with
    | none => none
    | some keys =>
      if cl.vagrantfile_path.isSome && !(keys.contains "vagrantfile_path") then none
      else if cl.playbook_path.isSome && !(keys.contains "playbook_path") then none
      else if cl.vault_file_path.isSome && !(keys.contains "vault_file_path") then none
      else
        match keys.mapM (resolve_key cwd cl) with
        | none => none
        | some kvs => some (sc, ("subcommand", sc) :: kvs)

/-- Result of `eval(f'{args.subcommand}(**all_arguments)')` for a catalog
subcommand name: `nameError` when no module-level function of that name
exists (the `except NameError` branch), `typeError` when a declared
parameter of the handler is missing from the dictionary (uncaught in the
source), otherwise the handler's run. -/
inductive CallResult where
  | nameError : CallResult
  | typeError : CallResult
  | done : RunResult → CallResult
deriving DecidableEq

/-- The `eval`-based dispatch: the subcommand string is looked up among the
module-level handler functions by name. Every handler ends in `**kwargs`,
so extra dictionary keys (such as `subcommand`) are absorbed; each handler
reads only its declared parameters. No function named `validate_playbook`
exists in the module, so that catalog name falls through to `NameError`.
(`parse_args` only ever produces catalog names, so the branches cover all
reachable subcommand strings.) -/
def call_handler (env : Env) (sc : String) (d : List (String × String)) : CallResult :=
  if sc = "validate" then
    match dict_get d "vagrantfile_path", dict_get d "playbook_path" with
    | some vf, some pb => CallResult.done (validate env vf pb)
    | _, _ => CallResult.typeError
  else if sc = "validate_vagrant" then
    match dict_get d "vagrantfile_path" with
    | some vf => CallResult.done (validate_vagrant env vf)
    | none => CallResult.typeError
  else if sc = "setup" then
    match dict_get d "vagrantfile_path", dict_get d "playbook_path" with
    | some vf, some pb => CallResult.done (setup env vf pb)
    | _, _ => CallResult.typeError
  else if sc = "status" then
    match dict_get d "vagrantfile_path" with
    | some vf => CallResult.done (status env vf)
    | none => CallResult.typeError
  else if sc = "enter" then
    match dict_get d "vagrantfile_path" with
    | some vf => CallResult.done (enter env vf)
    | none => CallResult.typeError
  else if sc = "reprovision" then
    match dict_get d "vagrantfile_path", dict_get d "playbook_path" with
    | some vf, some pb => CallResult.done (reprovision env vf pb)
    | _, _ => CallResult.typeError
  else if sc = "destroy" then
    match dict_get d "vagrantfile_path" with
    | some vf => CallResult.done (destroy env vf)
    | none => CallResult.typeError
  else if sc = "validate_ansible" then
    match dict_get d "playbook_path" with
    | some pb => CallResult.done (validate_ansible env pb)
    | none => CallResult.typeError
  else if sc = "encrypt_vault" then
    match dict_get d "vault_file_path" with
    | some v => CallResult.done (encrypt_vault env v)
    | none => CallResult.typeError
  else if sc = "edit_vault" then
    match dict_get d "vault_file_path" with
    | some v => CallResult.done (edit_vault env v)
    | none => CallResult.typeError
  else if sc = "view_vault" then
    match dict_get d "vault_file_path" with
    | some v => CallResult.done (view_vault env v)
    | none => CallResult.typeError
  else if sc = "rekey_vault" then
    match dict_get d "vault_file_path" with
    | some v => CallResult.done (rekey_vault env v)
    | none => CallResult.typeError
  else CallResult.nameError

/-- How a whole program run ends. `parseError`: `parser.error` (argparse
exits with status 2, nothing spawned). `notImplemented`: the caught
`NameError` also ends in `parser.error` (exit 2, nothing spawned).
`crashed`: an uncaught `TypeError` (unreachable from `main`, exit 1).
`ran tr o`: a handler ran, spawning `tr`; `o` is `ok` (exit 0) or an
uncaught `CalledProcessError` (Python exits 1). -/
inductive MainResult where
  | parseError : MainResult
  | notImplemented : MainResult
  | crashed : MainResult
  | ran : List Invocation → Outcome → MainResult
deriving DecidableEq

/-- `main()` (lines 317-349): parse, require a subcommand, then
`eval(f'{args.subcommand}(**all_arguments)')` with only `NameError`
caught. -/
def main (env : Env) (cwd : String) (cl : CmdLine) : MainResult :=
  match parse_args cwd cl with
  | none => MainResult.parseError
  | some (sc, d) =>
    match call_handler env sc d with
    | CallResult.nameError => MainResult.notImplemented
    | CallResult.typeError => MainResult.crashed
    | CallResult.done (tr, o) => MainResult.ran tr o

/-- The external processes a whole run spawned. -/
def spawned : MainResult → List Invocation
  | MainResult.ran tr _ => tr
  | _ => []

/-- The process exit status of a run: `parser.error` exits 2, an uncaught
Python exception makes the interpreter exit 1, a completed handler exits 0. -/
def exit_code : MainResult → Nat
  | MainResult.parseError => 2
  | MainResult.notImplemented => 2
  | MainResult.crashed => 1
  | MainResult.ran _ Outcome.ok => 0
  | MainResult.ran _ (Outcome.calledProcessError _ _) => 1

/-- An environment in which every external process succeeds. -/
def env0 : Env := fun _ => 0

/-- An environment in which every external process exits with status 3. -/
def env3 : Env := fun _ => 3

/-- An environment in which `vagrant validate` exits with status 1 and every
other process succeeds. -/
def envFail : Env := fun inv => if inv.cmd = VAGRANT_VALIDATE_CMD then 1 else 0

/-- The calling convention of a Python function: its named parameters and
whether the parameter list ends in `**kwargs`. -/
structure PySignature where
  params : List String
  var_keyword : Bool
deriving DecidableEq

/-- The signatures of the module-level handler functions of doit.py, read
off their `def` lines. Every one ends in `**kwargs`. (The module also
defines `run_cmd_and_exit`, the `add_argument_*` and `add_subparser_*`
helpers, `create_subparsers` and `main`, none of which is a catalog name.) -/
def handler_signatures : List (String × PySignature) :=
  [("validate", ⟨["vagrantfile_path", "playbook_path"], true⟩),
   ("validate_vagrant", ⟨["vagrantfile_path"], true⟩),
   ("setup", ⟨["vagrantfile_path", "playbook_path"], true⟩),
   ("status", ⟨["vagrantfile_path"], true⟩),
   ("enter", ⟨["vagrantfile_path"], true⟩),
   ("reprovision", ⟨["vagrantfile_path", "playbook_path"], true⟩),
   ("destroy", ⟨["vagrantfile_path"], true⟩),
   ("validate_ansible", ⟨["playbook_path"], true⟩),
   ("encrypt_vault", ⟨["vault_file_path"], true⟩),
   ("edit_vault", ⟨["vault_file_path"], true⟩),
   ("view_vault", ⟨["vault_file_path"], true⟩),
   ("rekey_vault", ⟨["vault_file_path"], true⟩)]

/-- Python call `f(**d)` raises no `TypeError`: every declared parameter is
among the supplied keys, and every supplied key is either a declared
parameter or absorbed by `**kwargs`. -/
def kwargs_call_ok (sig : PySignature) (keys : List String) : Bool :=
  sig.params.all (fun p => keys.contains p) &&
    (sig.var_keyword || keys.all (fun k => sig.params.contains k))

/-! ### Theorems -/

/-- A key not among the keys of an association list is looked up to `none`. -/
theorem dict_get_eq_none {β : Type} (d : List (String × β)) (key : String)
    (h : key ∉ d.map Prod.fst) : dict_get d key = none := by
  induction d with
  | nil => rfl
  | cons kv rest ih =>
    obtain ⟨k, v⟩ := kv
    rw [List.map_cons, List.mem_cons] at h
    push_neg at h
    rw [dict_get, if_neg (fun e => h.1 e.symm)]
    exact ih h.2

/-- C1: the `validate_playbook` subcommand does NOT lint the playbook file.
The subparser is registered (with help text promising `ansible-lint`), but no
module-level function named `validate_playbook` exists — the linting handler
is named `validate_ansible` — so `eval('validate_playbook(**all_arguments)')`
raises `NameError`, which `main` catches and turns into
`parser.error('Subcommand validate_playbook has not been implemented yet.')`:
the program exits with status 2 and spawns no external process, with the
playbook path explicit or defaulted alike. -/
theorem validate_playbook_dispatch_not_implemented :
    main env0 "/home/u/project" ⟨some "validate_playbook", none, some "/pb", none⟩ =
      MainResult.notImplemented ∧
    main env0 "/home/u/project" ⟨some "validate_playbook", none, none, none⟩ =
      MainResult.notImplemented ∧
    spawned (main env0 "/home/u/project" ⟨some "validate_playbook", none, some "/pb", none⟩) = [] ∧
    exit_code (main env0 "/home/u/project" ⟨some "validate_playbook", none, some "/pb", none⟩) = 2 :=
  ⟨rfl, rfl, rfl, rfl⟩

/-- C2 counterexample: the claim says `setup` spawns exactly two external
processes, but with every process succeeding it spawns three (`vagrant
validate`, `ansible-lint`, `vagrant up`). -/
theorem setup_spawn_count_counterexample :
    (spawned (main env0 "/d" ⟨some "setup", some "/vf", some "/pb", none⟩)).length = 3 ∧
    (spawned (main env0 "/d" ⟨some "setup", some "/vf", some "/pb", none⟩)).length ≠ 2 := by
  decide

/-- C2 (amended): dispatching each catalog subcommand with valid arguments
spawns, in order: three processes for `setup` and `reprovision` (the two
validation prerequisites then the primary command), two for `validate`, none
for `validate_playbook` (its handler is missing, so the run ends in the
not-implemented error), and exactly one for every other subcommand — each
with the expected command tokens and working directory. -/
theorem catalog_invocation_traces (env : Env) (vf pb vault cwd : String) :
    spawned (main env0 cwd ⟨some "setup", some vf, some pb, none⟩) =
      [⟨VAGRANT_VALIDATE_CMD, some vf⟩, ⟨ANSIBLE_LINT_CMD ++ [pb], none⟩,
       ⟨VAGRANT_UP_CMD, some vf⟩] ∧
    spawned (main env cwd ⟨some "status", some vf, none, none⟩) =
      [⟨VAGRANT_STATUS_CMD, some vf⟩] ∧
    spawned (main env cwd ⟨some "enter", some vf, none, none⟩) =
      [⟨VAGRANT_SSH_CMD, some vf⟩] ∧
    spawned (main env0 cwd ⟨some "reprovision", some vf, some pb, none⟩) =
      [⟨VAGRANT_VALIDATE_CMD, some vf⟩, ⟨ANSIBLE_LINT_CMD ++ [pb], none⟩,
       ⟨VAGRANT_REPROVISION_CMD, some vf⟩] ∧
    spawned (main env cwd ⟨some "destroy", some vf, none, none⟩) =
      [⟨VAGRANT_DESTROY_CMD, some vf⟩] ∧
    spawned (main env0 cwd ⟨some "validate", some vf, some pb, none⟩) =
      [⟨VAGRANT_VALIDATE_CMD, some vf⟩, ⟨ANSIBLE_LINT_CMD ++ [pb], none⟩] ∧
    spawned (main env cwd ⟨some "validate_vagrant", some vf, none, none⟩) =
      [⟨VAGRANT_VALIDATE_CMD, some vf⟩] ∧
    main env cwd ⟨some "validate_playbook", none, some pb, none⟩ = MainResult.notImplemented ∧
    spawned (main env cwd ⟨some "validate_playbook", none, some pb, none⟩) = [] ∧
    spawned (main env cwd ⟨some "encrypt_vault", none, none, some vault⟩) =
      [⟨ANSIBLE_VAULT_CMD ++ ["encrypt", vault], none⟩] ∧
    spawned (main env cwd ⟨some "edit_vault", none, none, some vault⟩) =
      [⟨ANSIBLE_VAULT_CMD ++ ["edit", vault], none⟩] ∧
    spawned (main env cwd ⟨some "view_vault", none, none, some vault⟩) =
      [⟨ANSIBLE_VAULT_CMD ++ ["view", vault], none⟩] ∧
    spawned (main env cwd ⟨some "rekey_vault", none, none, some vault⟩) =
      [⟨ANSIBLE_VAULT_CMD ++ ["rekey", vault], none⟩] :=
  ⟨rfl, rfl, rfl, rfl, rfl, rfl, rfl, rfl, rfl, rfl, rfl, rfl, rfl⟩

/-- C3: for `setup` with vagrantfile path A and playbook path B, the
validation chain `validate(A, B)` runs first (its trace is a prefix of the
whole trace), and when any validation process exits non-zero the
`CalledProcessError` aborts the handler: the trace is exactly the
validation trace and `vagrant up` is never invoked. -/
theorem setup_runs_validate_first_and_gates_up (env : Env) (A B : String) :
    (∃ rest, (setup env A B).1 = (validate env A B).1 ++ rest) ∧
    ((validate env A B).2 ≠ Outcome.ok →
      (setup env A B).1 = (validate env A B).1 ∧
      ∀ inv ∈ (setup env A B).1, inv.cmd ≠ VAGRANT_UP_CMD) := by
  by_cases h1 : env ⟨VAGRANT_VALIDATE_CMD, some A⟩ = 0
  · by_cases h2 : env ⟨ANSIBLE_LINT_CMD ++ [B], none⟩ = 0
    · refine ⟨⟨[⟨VAGRANT_UP_CMD, some A⟩], ?_⟩, ?_⟩
      · simp [setup, validate, validate_vagrant, validate_ansible, run_cmd_and_exit, andThen,
          h1, h2]
      · intro hne
        exact absurd
          (by simp [validate, validate_vagrant, validate_ansible, run_cmd_and_exit, andThen,
            h1, h2]) hne
    · refine ⟨⟨[], ?_⟩, fun _ => ⟨?_, ?_⟩⟩
      · simp [setup, validate, validate_vagrant, validate_ansible, run_cmd_and_exit, andThen,
          h1, h2]
      · simp [setup, validate, validate_vagrant, validate_ansible, run_cmd_and_exit, andThen,
          h1, h2]
      · intro inv hmem
        simp [setup, validate, validate_vagrant, validate_ansible, run_cmd_and_exit, andThen,
          h1, h2] at hmem
        rcases hmem with h | h <;> subst h <;>
          simp [VAGRANT_UP_CMD, VAGRANT_VALIDATE_CMD, ANSIBLE_LINT_CMD]
  · refine ⟨⟨[], ?_⟩, fun _ => ⟨?_, ?_⟩⟩
    · simp [setup, validate, validate_vagrant, validate_ansible, run_cmd_and_exit, andThen, h1]
    · simp [setup, validate, validate_vagrant, validate_ansible, run_cmd_and_exit, andThen, h1]
    · intro inv hmem
      simp [setup, validate, validate_vagrant, validate_ansible, run_cmd_and_exit, andThen,
        h1] at hmem
      subst hmem
      simp [VAGRANT_UP_CMD, VAGRANT_VALIDATE_CMD]

/-- C3 witness: in the environment where `vagrant validate` fails, the
validation outcome is an error, the `setup` trace is exactly the validation
trace, and `vagrant up` never appears in it. -/
theorem setup_runs_validate_first_and_gates_up_witness :
    (validate envFail "/a" "/b").2 ≠ Outcome.ok ∧
    ((setup envFail "/a" "/b").1 = (validate envFail "/a" "/b").1 ∧
      ∀ inv ∈ (setup envFail "/a" "/b").1, inv.cmd ≠ VAGRANT_UP_CMD) :=
  ⟨by decide, (setup_runs_validate_first_and_gates_up envFail "/a" "/b").2 (by decide)⟩

/-- C4 counterexample: with every external process exiting with status 3,
running `status` ends in an uncaught `CalledProcessError` and the program
exits with the interpreter's generic code 1, not with the failing process's
own status 3. -/
theorem child_exit_status_not_propagated :
    main env3 "/d" ⟨some "status", some "/vf", none, none⟩ =
      MainResult.ran [⟨VAGRANT_STATUS_CMD, some "/vf"⟩]
        (Outcome.calledProcessError ⟨VAGRANT_STATUS_CMD, some "/vf"⟩ 3) ∧
    exit_code (main env3 "/d" ⟨some "status", some "/vf", none, none⟩) = 1 ∧
    exit_code (main env3 "/d" ⟨some "status", some "/vf", none, none⟩) ≠ 3 := by
  decide

/-- C4 (amended): whenever a spawned external process exits non-zero, the
uncaught `CalledProcessError` terminates the program with a non-zero exit
status — always the interpreter's generic code 1, regardless of the failing
process's own status (which is carried in the exception, not in the exit
code). -/
theorem external_failure_exits_one (env : Env) (cwd : String) (cl : CmdLine)
    (tr : List Invocation) (inv : Invocation) (c : Nat)
    (h : main env cwd cl = MainResult.ran tr (Outcome.calledProcessError inv c)) :
    exit_code (main env cwd cl) = 1 ∧ exit_code (main env cwd cl) ≠ 0 := by
  rw [h]
  exact ⟨rfl, fun hc => Nat.noConfusion hc⟩

/-- C4 witness: the amended statement at the concrete failing `status` run. -/
theorem external_failure_exits_one_witness :
    exit_code (main env3 "/d" ⟨some "status", some "/vf", none, none⟩) = 1 ∧
    exit_code (main env3 "/d" ⟨some "status", some "/vf", none, none⟩) ≠ 0 :=
  external_failure_exits_one env3 "/d" ⟨some "status", some "/vf", none, none⟩
    [⟨VAGRANT_STATUS_CMD, some "/vf"⟩] ⟨VAGRANT_STATUS_CMD, some "/vf"⟩ 3 (by decide)

/-- C5: a missing subcommand, or a subcommand name outside the catalog, is
rejected by `parser.error` / argparse's invalid-choice check: the program
exits with status 2 (non-zero) and spawns no external process. -/
theorem unknown_subcommand_rejected (env : Env) (cwd : String) (cl : CmdLine)
    (h : cl.subcommand = none ∨ ∃ sc, cl.subcommand = some sc ∧ sc ∉ catalog) :
    main env cwd cl = MainResult.parseError ∧
    spawned (main env cwd cl) = [] ∧
    exit_code (main env cwd cl) ≠ 0 := by
  have hp : parse_args cwd cl = none := by
    rcases h with h | ⟨sc, hsc, hmem⟩
    · simp [parse_args, h]
    · have hmem' : sc ∉ subparser_table.map Prod.fst := by simpa [catalog] using hmem
      have hk : subparser_keys sc = none := dict_get_eq_none _ _ hmem'
      simp [parse_args, hsc, subparser_keys] at hk ⊢
      simp [hk]
  have hm : main env cwd cl = MainResult.parseError := by simp [main, hp]
  refine ⟨hm, ?_, ?_⟩ <;> rw [hm] <;> decide

/-- C5 witness: a concrete unrecognized subcommand name. -/
theorem unknown_subcommand_rejected_witness :
    main env0 "/d" ⟨some "frobnicate", none, none, none⟩ = MainResult.parseError ∧
    spawned (main env0 "/d" ⟨some "frobnicate", none, none, none⟩) = [] ∧
    exit_code (main env0 "/d" ⟨some "frobnicate", none, none, none⟩) ≠ 0 :=
  unknown_subcommand_rejected env0 "/d" ⟨some "frobnicate", none, none, none⟩
    (Or.inr ⟨"frobnicate", rfl, by decide⟩)

/-- C6: every vault subcommand declares `--vault-file-path` with
`required=True` and no default, so invoking one without it makes argparse
exit with status 2 (non-zero) before any external process is spawned —
whatever other options were supplied. -/
theorem vault_file_required (env : Env) (cwd : String) (sc : String)
    (ovf opb : Option String)
    (h1 : sc ∈ ["encrypt_vault", "edit_vault", "view_vault", "rekey_vault"]) :
    main env cwd ⟨some sc, ovf, opb, none⟩ = MainResult.parseError ∧
    spawned (main env cwd ⟨some sc, ovf, opb, none⟩) = [] ∧
    exit_code (main env cwd ⟨some sc, ovf, opb, none⟩) ≠ 0 := by
  simp only [List.mem_cons, List.not_mem_nil, or_false] at h1
  rcases h1 with rfl | rfl | rfl | rfl <;>
    cases ovf <;> cases opb <;> exact ⟨rfl, rfl, fun hc => Nat.noConfusion hc⟩

/-- C6 witness: `encrypt_vault` with no options at all. -/
theorem vault_file_required_witness :
    main env0 "/d" ⟨some "encrypt_vault", none, none, none⟩ = MainResult.parseError ∧
    spawned (main env0 "/d" ⟨some "encrypt_vault", none, none, none⟩) = [] ∧
    exit_code (main env0 "/d" ⟨some "encrypt_vault", none, none, none⟩) ≠ 0 :=
  vault_file_required env0 "/d" "encrypt_vault" none none (by decide)

/-- C7: with the current directory `/home/u/project` and no
`--playbook-path`, the playbook path resolves to
`/home/u/project/provisioning/playbook.yml`; the resolved default is what a
dispatched handler (`validate` here) passes to `ansible-lint`. -/
theorem default_playbook_resolution :
    default_playbook_path "/home/u/project" = "/home/u/project/provisioning/playbook.yml" ∧
    spawned (main env0 "/home/u/project" ⟨some "validate", some "/vf", none, none⟩) =
      [⟨VAGRANT_VALIDATE_CMD, some "/vf"⟩,
       ⟨ANSIBLE_LINT_CMD ++ ["/home/u/project/provisioning/playbook.yml"], none⟩] :=
  ⟨rfl, rfl⟩

/-- C8: every VM-related action runs its `vagrant` process with `cwd` set to
the supplied or defaulted vagrantfile path (for `setup` and `reprovision`,
the prerequisite `vagrant validate` and the primary command both do, with
the `ansible-lint` step in between inheriting the dispatcher's directory),
while playbook linting and all four vault actions pass no `cwd`, so the
dispatcher's own working directory is inherited unchanged. -/
theorem workdir_discipline (env : Env) (vf pb vault : String) :
    (status env vf).1 = [⟨VAGRANT_STATUS_CMD, some vf⟩] ∧
    (enter env vf).1 = [⟨VAGRANT_SSH_CMD, some vf⟩] ∧
    (destroy env vf).1 = [⟨VAGRANT_DESTROY_CMD, some vf⟩] ∧
    (validate_vagrant env vf).1 = [⟨VAGRANT_VALIDATE_CMD, some vf⟩] ∧
    (setup env0 vf pb).1.map Invocation.workdir = [some vf, none, some vf] ∧
    (reprovision env0 vf pb).1.map Invocation.workdir = [some vf, none, some vf] ∧
    (validate_ansible env pb).1 = [⟨ANSIBLE_LINT_CMD ++ [pb], none⟩] ∧
    (encrypt_vault env vault).1 = [⟨ANSIBLE_VAULT_CMD ++ ["encrypt", vault], none⟩] ∧
    (edit_vault env vault).1 = [⟨ANSIBLE_VAULT_CMD ++ ["edit", vault], none⟩] ∧
    (view_vault env vault).1 = [⟨ANSIBLE_VAULT_CMD ++ ["view", vault], none⟩] ∧
    (rekey_vault env vault).1 = [⟨ANSIBLE_VAULT_CMD ++ ["rekey", vault], none⟩] :=
  ⟨rfl, rfl, rfl, rfl, rfl, rfl, rfl, rfl, rfl, rfl, rfl⟩

/-- C9: `status` and `validate_vagrant` build their invocation parameters
from the arguments alone — two runs with identical argument values produce
identical traces whatever the outside world (or the dispatcher's own
directory) did in between, and the parameters are the fixed expected ones.
There is no mutable program state for repetition to accumulate. -/
theorem status_validate_vagrant_idempotent (env1 env2 : Env) (cwd1 cwd2 vf : String) :
    (status env1 vf).1 = (status env2 vf).1 ∧
    (validate_vagrant env1 vf).1 = (validate_vagrant env2 vf).1 ∧
    spawned (main env1 cwd1 ⟨some "status", some vf, none, none⟩) =
      spawned (main env2 cwd2 ⟨some "status", some vf, none, none⟩) ∧
    spawned (main env1 cwd1 ⟨some "validate_vagrant", some vf, none, none⟩) =
      spawned (main env2 cwd2 ⟨some "validate_vagrant", some vf, none, none⟩) ∧
    (status env1 vf).1 = [⟨VAGRANT_STATUS_CMD, some vf⟩] ∧
    (validate_vagrant env1 vf).1 = [⟨VAGRANT_VALIDATE_CMD, some vf⟩] :=
  ⟨rfl, rfl, rfl, rfl, rfl, rfl⟩

/-- C10: every module-level handler bound to a catalog name ends in
`**kwargs` and its declared parameters are all among the parsed-argument
keys (which always include the extra `subcommand` key), so the
keyword-argument call never raises `TypeError`; and the `eval` dispatch
reads only the declared argument fields, so an extra dictionary entry under
any other key never changes a handler's behaviour. -/
theorem handlers_absorb_extra_kwargs :
    (catalog.all fun sc =>
      match dict_get handler_signatures sc with
      | none => true
      | some sig =>
        sig.var_keyword &&
          kwargs_call_ok sig ("subcommand" :: (subparser_keys sc).getD [])) = true ∧
    ∀ (env : Env) (sc k v : String) (d : List (String × String)),
      k ≠ "vagrantfile_path" → k ≠ "playbook_path" → k ≠ "vault_file_path" →
      call_handler env sc ((k, v) :: d) = call_handler env sc d := by
  constructor
  · decide
  · intro env sc k v d h1 h2 h3
    have g1 : dict_get ((k, v) :: d) "vagrantfile_path" = dict_get d "vagrantfile_path" := by
      simp [dict_get, h1]
    have g2 : dict_get ((k, v) :: d) "playbook_path" = dict_get d "playbook_path" := by
      simp [dict_get, h2]
    have g3 : dict_get ((k, v) :: d) "vault_file_path" = dict_get d "vault_file_path" := by
      simp [dict_get, h3]
    simp only [call_handler, g1, g2, g3]

/-- C10 witness: the extra `subcommand` key does not change the `status`
handler's run. -/
theorem handlers_absorb_extra_kwargs_witness :
    call_handler env0 "status" (("subcommand", "status") :: [("vagrantfile_path", "/vf")]) =
      call_handler env0 "status" [("vagrantfile_path", "/vf")] :=
  handlers_absorb_extra_kwargs.2 env0 "status" "subcommand" "status"
    [("vagrantfile_path", "/vf")] (by decide) (by decide) (by decide)

end Doit
